/-
Verification of the CricketAuction frontend core against its specification.

Shallow embedding of:
  * `apiFetch` and `checkAPIHealth`   (Auction_Frontend/js/api.js)
  * the live-auction polling loop     (Auction_Frontend/js/live-auction.js)
  * the chat transcript store         (Auction_Frontend/js/chat.js)
  * `sendDirectChatRequest`           (Auction_Frontend/js/backend-direct.js)

JavaScript machine behaviour is modelled explicitly: `||`-chains on
possibly-missing string fields use JS truthiness (absent and `""` are
falsy), fallible host calls (`fetch`, `response.json()`) are modelled as
explicit outcome values supplied per attempt, and the retry loop is a
fuel-indexed recursion mirroring the `for` loop of `apiFetch`.
-/

import Mathlib

namespace CricketAuction

/-! ### JS helpers -/

/-- JS truthiness on an optional string: `undefined`/`null` and `""` are falsy.
Used to model `a || b` chains over response fields. -/
def jsTruthy (o : Option String) : Option String :=
  match o with
  | some s => if s = "" then none else some s
  | none => none

/-! ### api.js: `apiFetch`

The parsed response body.  `apiFetch` only inspects the `detail` and
`message` fields of the parsed JSON (`data.detail || data.message || ...`);
a non-JSON body is wrapped by the source as `{ message: text }`, i.e. a
`RespData` with `detail := none`. -/

structure RespData where
  detail : Option String
  message : Option String
deriving Repr, DecidableEq

/-- Outcome of one `fetch` attempt, as observed by the `try` block of
`apiFetch`:
* `netError msg` — the attempt threw a non-`APIError` exception before a
  usable response was produced (`fetch` rejected, or `response.json()` /
  `response.text()` threw); `msg` is that exception's message;
* `httpResponse status data` — a response arrived with the given status and
  its body was read into `data`. -/
inductive AttemptOutcome
  | netError (msg : String)
  | httpResponse (status : Nat) (data : RespData)
deriving Repr, DecidableEq

/-- Result of `apiFetch`: the resolved data, or the thrown `APIError`
(message and status; the wrapped terminal network error carries status 0). -/
inductive APIResult
  | success (data : RespData)
  | failure (message : String) (status : Nat)
deriving Repr, DecidableEq

/-- Observable trace of one `apiFetch` call: its result, how many `fetch`
attempts were issued, and the backoff delays awaited between attempts. -/
structure FetchTrace where
  result : APIResult
  attempts : Nat
  delays : List Nat
deriving Repr, DecidableEq

/-- The `lastError` variable of the retry loop. -/
inductive LastError
  | noneYet
  | apiErr (message : String) (status : Nat)
  | fetchErr (msg : String)
deriving Repr, DecidableEq

/-- `Math.min(1000 * Math.pow(2, attempt - 1), 5000)`. -/
def backoffDelay (attempt : Nat) : Nat :=
  min (1000 * 2 ^ (attempt - 1)) 5000

/-- `data.detail || data.message || `HTTP error! status: ${status}`` — the
message of the `APIError` built for a non-ok response. -/
def apiErrorMessage (data : RespData) (status : Nat) : String :=
  ((jsTruthy data.detail).orElse fun _ => jsTruthy data.message).getD
    ("HTTP error! status: " ++ toString status)

/-- Code run after the loop: `if lastError instanceof APIError throw
lastError; throw new APIError(`Network error after ${maxRetries}
attempts: ...`, 0, null)`.  `noneYet` cannot occur for `maxRetries ≥ 1`
(the JS would crash dereferencing `null`). -/
def exhaust (maxRetries : Nat) (last : LastError) : APIResult :=
  match last with
  | .apiErr m s => .failure m s
  | .fetchErr m =>
    .failure ("Network error after " ++ toString maxRetries ++ " attempts: " ++ m) 0
  | .noneYet => .failure "" 0

/-- The retry loop of `apiFetch`.  `fuel` is the number of loop iterations
still allowed (`maxRetries - attempt + 1` at entry), `attempt` the
1-based attempt counter, `last` the `lastError` variable, `delays` the
backoff delays awaited so far, `made` the fetches issued so far. -/
def apiFetchGo (outcomes : Nat → AttemptOutcome) (maxRetries : Nat) :
    Nat → Nat → LastError → List Nat → Nat → FetchTrace
  | 0, _, last, delays, made => ⟨exhaust maxRetries last, made, delays⟩
  | fuel + 1, attempt, _, delays, made =>
    match outcomes attempt with
    | .httpResponse status data =>
      if 200 ≤ status ∧ status < 300 then
        -- response.ok: return data
        ⟨.success data, made + 1, delays⟩
      else
        -- throw new APIError(...); caught below
        let msg := apiErrorMessage data status
        if 400 ≤ status ∧ status < 500 then
          -- client error: rethrown immediately
          ⟨.failure msg status, made + 1, delays⟩
        else
          apiFetchGo outcomes maxRetries fuel (attempt + 1) (.apiErr msg status)
            (if attempt < maxRetries then delays ++ [backoffDelay attempt] else delays)
            (made + 1)
    | .netError m =>
        -- caught non-APIError: the 4xx guard does not fire
        apiFetchGo outcomes maxRetries fuel (attempt + 1) (.fetchErr m)
          (if attempt < maxRetries then delays ++ [backoffDelay attempt] else delays)
          (made + 1)

/-- `apiFetch`, with `maxRetries = 3` as in the source.  The environment is
a function giving the outcome of each fetch attempt. -/
def apiFetch (outcomes : Nat → AttemptOutcome) : FetchTrace :=
  apiFetchGo outcomes 3 3 1 .noneYet [] 0

/-- An attempt outcome the loop retries on: a network-level failure or a
server-side (≥ 500) response. -/
def isRetryFailure : AttemptOutcome → Bool
  | .netError _ => true
  | .httpResponse status _ => decide (500 ≤ status)

/-- The successor `lastError` recorded after a retried failure. -/
def nextLast : AttemptOutcome → LastError
  | .netError m => .fetchErr m
  | .httpResponse status data => .apiErr (apiErrorMessage data status) status

/-- The message `m` mentions the word "attempts" (how we read "reports the
attempt count" formally: the human-readable message talks about attempts). -/
def mentionsAttempts (m : String) : Bool :=
  decide ("attempts".toList <:+: m.toList)

/-! ### api.js: `checkAPIHealth` -/

/-- `checkAPIHealth`: `response.ok || response.status === 405`, and `false`
if the probe `fetch` threw. -/
def checkAPIHealth (o : AttemptOutcome) : Bool :=
  match o with
  | .netError _ => false
  | .httpResponse status _ => (200 ≤ status ∧ status < 300 : Bool) || status == 405

/-! ### live-auction.js: the polling loop

`live-auction.js` registers three resources, each fetched by its own
`async` loader and rendered into its own container:

* `status` — `loadAuctionStatus`   (renders via `displayAuctionStatus`,
  failure calls `showError`);
* `recs`   — `loadLiveRecommendations`  (renders via
  `displayLiveRecommendations`, failure writes an error paragraph into
  its own container);
* `sales`  — `loadRecentSales`     (renders via `displayRecentSales`,
  failure logs to the console).

The event-loop behaviour is modelled as a small labelled transition
system: issuing a fetch puts the resource in flight, and a later
`complete` event delivers the result to that resource's own callback.
The source has no "stopped" check in any loader, so delivery is
unconditional. -/

inductive Resource
  | status
  | recs
  | sales
deriving Repr, DecidableEq

/-- Per-resource invocation counters (one field per registered resource). -/
structure Counts where
  status : Nat
  recs : Nat
  sales : Nat
deriving Repr, DecidableEq

/-- Bump the counter of one resource. -/
def Counts.inc (c : Counts) : Resource → Counts
  | .status => { c with status := c.status + 1 }
  | .recs => { c with recs := c.recs + 1 }
  | .sales => { c with sales := c.sales + 1 }

/-- State of the live-auction page:
* `running`  — whether `refreshInterval` is set (non-null);
* `inFlight` — fetches issued but not yet completed (multiset as a list);
* `renders`  — how often each resource's success render callback ran;
* `errors`   — how often each resource's failure handler ran. -/
structure PollState where
  running : Bool
  inFlight : List Resource
  renders : Counts
  errors : Counts
deriving Repr, DecidableEq

/-- Events of the page's event loop:
* `pageLoad`  — the `DOMContentLoaded` handler: calls the three loaders,
  then `startAutoRefresh`;
* `startAuto` — `startAutoRefresh()`;
* `stopAuto`  — `stopAutoRefresh()`;
* `tick`      — the `setInterval` callback fires (only effective while the
  timer is set): calls the three loaders;
* `complete r ok` — an in-flight fetch for `r` settles, successfully iff
  `ok`, and its result is delivered to `r`'s callback. -/
inductive Ev
  | pageLoad
  | startAuto
  | stopAuto
  | tick
  | complete (r : Resource) (ok : Bool)
deriving Repr, DecidableEq

/-- `loadAuctionStatus(); loadLiveRecommendations(); loadRecentSales();`
— each call issues a fetch without awaiting the others. -/
def issueAll (s : PollState) : PollState :=
  { s with inFlight := s.inFlight ++ [.status, .recs, .sales] }

/-- `startAutoRefresh`: `if (refreshInterval) return;` then set the timer.
It only schedules; it issues no fetch. -/
def startAutoRefresh (s : PollState) : PollState :=
  if s.running then s else { s with running := true }

/-- `stopAutoRefresh`: `clearInterval` and null the handle.  Only the
timer is cancelled; in-flight fetches are untouched. -/
def stopAutoRefresh (s : PollState) : PollState :=
  if s.running then { s with running := false } else s

/-- One event-loop step. -/
def step (s : PollState) : Ev → PollState
  | .pageLoad => startAutoRefresh (issueAll s)
  | .startAuto => startAutoRefresh s
  | .stopAuto => stopAutoRefresh s
  | .tick => if s.running then issueAll s else s
  | .complete r ok =>
    if r ∈ s.inFlight then
      { s with
        inFlight := s.inFlight.erase r
        renders := if ok then s.renders.inc r else s.renders
        errors := if ok then s.errors else s.errors.inc r }
    else s

/-- Run a list of events. -/
def run (s : PollState) (es : List Ev) : PollState :=
  es.foldl step s

/-- Fresh page state: no timer, nothing in flight, no callback has run. -/
def pollInit : PollState :=
  { running := false, inFlight := [], renders := ⟨0, 0, 0⟩, errors := ⟨0, 0, 0⟩ }

/-- A steady running state, as reached once the timer is active and all
fetches of earlier rounds have completed. -/
def pollRunningIdle : PollState :=
  { running := true, inFlight := [], renders := ⟨0, 0, 0⟩, errors := ⟨0, 0, 0⟩ }

/-- One polling round in which the `status` fetch fails while `recs` and
`sales` succeed: the interval fires and every fetch of that tick settles. -/
def tickRound : List Ev :=
  [.tick, .complete .status false, .complete .recs true, .complete .sales true]

/-- `n` consecutive such rounds. -/
def tickRounds : Nat → List Ev
  | 0 => []
  | n + 1 => tickRound ++ tickRounds n

/-! ### chat.js: the transcript store -/

/-- One chat entry, `{role, content}`. -/
structure Entry where
  role : String
  content : String
deriving Repr, DecidableEq

/-- `saveChatHistory`: `chatHistory.slice(-50)` is persisted — the last 50
entries of the in-memory transcript (the whole transcript when it has at
most 50 entries).  `slice(-50)` is the length-`min(len, 50)` suffix, i.e.
`drop (len - 50)` with truncated subtraction. -/
def saveChatHistory (chatHistory : List Entry) : List Entry :=
  chatHistory.drop (chatHistory.length - 50)

/-- The history-restore step of `initializeChatInterface` (chat.js lines
32–42).  `saved` is `localStorage.getItem('chatHistory')` (`none` for a
missing slot); `parse` models `JSON.parse` specialised to entry lists,
returning `none` when it throws.  `chatHistory` starts as `[]`; the slot
is only consulted when truthy (non-null, non-empty), and a parse failure
is caught, leaving the initial `[]` in place. -/
def loadChatHistory (parse : String → Option (List Entry))
    (saved : Option String) : List Entry :=
  match saved with
  | none => []
  | some s =>
    if s = "" then []
    else
      match parse s with
      | some l => l
      | none => []

/-! ### backend-direct.js: `sendDirectChatRequest` -/

/-- The parsed JSON body of a `/chat` response, restricted to the fields
`sendDirectChatRequest` reads (`detail` on the error path; `response`,
`message`, `source`, `context_provided` on the success path). -/
structure ChatBody where
  response : Option String
  message : Option String
  source : Option String
  detail : Option String
  context_provided : Option Bool
deriving Repr, DecidableEq

/-- Outcome of the `fetch('/chat')` call:
* `thrown msg` — `fetch` rejected (network failure) with an error whose
  message is `msg`;
* `httpResponse status statusText body` — a response of the given status
  arrived; `body` is the result of `response.json()`: `.ok` the parsed
  JSON, `.error msg` when parsing threw an exception with message `msg`. -/
inductive ChatFetchOutcome
  | thrown (msg : String)
  | httpResponse (status : Nat) (statusText : String) (body : Except String ChatBody)
deriving Repr

/-- The object `sendDirectChatRequest` resolves with.  `context_provided`
is `none` on the paths that omit the field. -/
structure ChatResult where
  response : String
  source : String
  error : Bool
  context_provided : Option Bool
deriving Repr, DecidableEq

/-- The object returned from the `catch` block of `sendDirectChatRequest`. -/
def chatCatchResult (msg : String) : ChatResult :=
  { response := s!"Failed to connect to backend: {msg}. Is the backend running on port 8000?"
    source := "offline"
    error := true
    context_provided := none }

/-- `sendDirectChatRequest` (backend-direct.js lines 26–84), given the
module-level `backendAvailable` flag and the outcome of the single
`fetch`.  It never throws: every path returns a `ChatResult`. -/
def sendDirectChatRequest (backendAvailable : Bool) (o : ChatFetchOutcome) :
    ChatResult :=
  if !backendAvailable then
    { response := "Backend is not available. Please start the backend server with: uvicorn main:app --host 0.0.0.0 --port 8000"
      source := "offline"
      error := true
      context_provided := none }
  else
    match o with
    | .thrown msg => chatCatchResult msg
    | .httpResponse status statusText body =>
      if 200 ≤ status ∧ status < 300 then
        match body with
        | .ok result =>
          { response := ((jsTruthy result.response).orElse fun _ =>
                jsTruthy result.message).getD "No response"
            source := (jsTruthy result.source).getD "backend"
            error := false
            context_provided := some (result.context_provided.getD false) }
        | .error msg => chatCatchResult msg
      else
        match body with
        | .ok err =>
          { response := s!"Error from backend: " ++ ((jsTruthy err.detail).getD statusText)
            source := "error"
            error := true
            context_provided := none }
        | .error msg => chatCatchResult msg

/-- The outcomes on which `sendDirectChatRequest` actually reports success:
an OK-status response whose body parsed as JSON. -/
def isOkParsed : ChatFetchOutcome → Bool
  | .httpResponse status _ (.ok _) => decide (200 ≤ status) && decide (status < 300)
  | _ => false

/-! ## Lemmas about the retry loop -/

/-- Unfolding one loop iteration on an attempt the loop retries: the
failure is recorded in `lastError`, a backoff delay is awaited when
budget remains, and the loop continues with the next attempt. -/
theorem apiFetchGo_retry (outcomes : Nat → AttemptOutcome)
    (maxR fuel fuel' attempt : Nat) (last : LastError) (delays : List Nat)
    (made : Nat) (hf : fuel = fuel' + 1)
    (h : isRetryFailure (outcomes attempt) = true) :
    apiFetchGo outcomes maxR fuel attempt last delays made =
      apiFetchGo outcomes maxR fuel' (attempt + 1) (nextLast (outcomes attempt))
        (if attempt < maxR then delays ++ [backoffDelay attempt] else delays)
        (made + 1) := by
  subst hf
  cases ho : outcomes attempt with
  | netError m => simp [apiFetchGo, ho, nextLast]
  | httpResponse status data =>
    have h500 : 500 ≤ status := by
      have := h
      rw [ho] at this
      simpa [isRetryFailure] using this
    have hnok : ¬(200 ≤ status ∧ status < 300) := by omega
    have hncl : ¬(400 ≤ status ∧ status < 500) := by omega
    simp [apiFetchGo, ho, nextLast, hnok, hncl]

/-- Unfolding one loop iteration on an attempt that observes a client
error (status 400–499): the `APIError` is rethrown at once, with no
delay and no further attempt. -/
theorem apiFetchGo_clientError (outcomes : Nat → AttemptOutcome)
    (maxR fuel fuel' attempt : Nat) (last : LastError) (delays : List Nat)
    (made status : Nat) (data : RespData) (hf : fuel = fuel' + 1)
    (ho : outcomes attempt = .httpResponse status data)
    (h4 : 400 ≤ status) (h5 : status < 500) :
    apiFetchGo outcomes maxR fuel attempt last delays made =
      ⟨.failure (apiErrorMessage data status) status, made + 1, delays⟩ := by
  subst hf
  have hnok : ¬(200 ≤ status ∧ status < 300) := by omega
  have hcl : 400 ≤ status ∧ status < 500 := ⟨h4, h5⟩
  simp [apiFetchGo, ho, hnok, hcl]

/-! ## C1 -/

/-- **C1.** For every request whose HTTP response has a client-error status
(400–499), `apiFetch` raises the resulting `APIError` immediately on the
first attempt `k` that observes it: the call makes exactly `k` fetch
attempts (none after the client error, however much retry budget remains)
and the only delays awaited are the ones between the `k - 1` earlier
retryable failures — no backoff delay follows the client error. -/
theorem apiFetch_client_error_terminal (outcomes : Nat → AttemptOutcome)
    (k status : Nat) (data : RespData)
    (hk1 : 1 ≤ k) (hk3 : k ≤ 3)
    (hprev : ∀ j, 1 ≤ j → j < k → isRetryFailure (outcomes j) = true)
    (ho : outcomes k = .httpResponse status data)
    (h4 : 400 ≤ status) (h5 : status < 500) :
    apiFetch outcomes =
      ⟨.failure (apiErrorMessage data status) status, k,
        (List.range (k - 1)).map fun i => backoffDelay (i + 1)⟩ := by
  interval_cases k
  · rw [show apiFetch outcomes = apiFetchGo outcomes 3 3 1 .noneYet [] 0 from rfl,
        apiFetchGo_clientError outcomes 3 3 2 1 _ _ _ _ _ rfl ho h4 h5]
    simp
  · rw [show apiFetch outcomes = apiFetchGo outcomes 3 3 1 .noneYet [] 0 from rfl,
        apiFetchGo_retry outcomes 3 3 2 1 _ _ _ rfl
          (hprev 1 (by norm_num) (by norm_num)),
        apiFetchGo_clientError outcomes 3 2 1 2 _ _ _ _ _ rfl ho h4 h5]
    norm_num [backoffDelay, List.range_succ]
  · rw [show apiFetch outcomes = apiFetchGo outcomes 3 3 1 .noneYet [] 0 from rfl,
        apiFetchGo_retry outcomes 3 3 2 1 _ _ _ rfl
          (hprev 1 (by norm_num) (by norm_num)),
        apiFetchGo_retry outcomes 3 2 1 2 _ _ _ rfl
          (hprev 2 (by norm_num) (by norm_num)),
        apiFetchGo_clientError outcomes 3 1 0 3 _ _ _ _ _ rfl ho h4 h5]
    norm_num [backoffDelay, List.range_succ]

/-- An environment whose first attempt fails at the network level and whose
second attempt yields a 404 response. -/
def exC1 : Nat → AttemptOutcome := fun j =>
  if j = 2 then .httpResponse 404 ⟨none, none⟩ else .netError "refused"

/-- Witness for C1: with a network failure on attempt 1 and a 404 on
attempt 2, `apiFetch` stops at attempt 2 with only the one earlier backoff
delay. -/
theorem apiFetch_client_error_terminal_witness :
    apiFetch exC1 =
      ⟨.failure (apiErrorMessage ⟨none, none⟩ 404) 404, 2,
        (List.range (2 - 1)).map fun i => backoffDelay (i + 1)⟩ :=
  apiFetch_client_error_terminal exC1 2 404 ⟨none, none⟩ (by norm_num) (by norm_num)
    (by intro j hj1 hj2; interval_cases j; decide) (by decide)
    (by norm_num) (by norm_num)

/-! ## C2 -/

/-- **C2.** If every attempt fails with a network error or a server-error
(≥ 500) response, `apiFetch` makes exactly `maxRetries = 3` attempts, and
the inter-attempt delays are `[1000, 2000]` ms: strictly increasing
(doubling) and never above the 5000 ms cap. -/
theorem apiFetch_retry_backoff_exhaustion (outcomes : Nat → AttemptOutcome)
    (h : ∀ j, 1 ≤ j → j ≤ 3 → isRetryFailure (outcomes j) = true) :
    (apiFetch outcomes).attempts = 3 ∧
    (apiFetch outcomes).delays = [1000, 2000] ∧
    List.Chain' (fun a b => a < b) (apiFetch outcomes).delays ∧
    ∀ d ∈ (apiFetch outcomes).delays, d ≤ 5000 := by
  have key : apiFetch outcomes =
      ⟨exhaust 3 (nextLast (outcomes 3)), 3, [1000, 2000]⟩ := by
    rw [show apiFetch outcomes = apiFetchGo outcomes 3 3 1 .noneYet [] 0 from rfl,
        apiFetchGo_retry outcomes 3 3 2 1 _ _ _ rfl
          (h 1 (by norm_num) (by norm_num)),
        apiFetchGo_retry outcomes 3 2 1 2 _ _ _ rfl
          (h 2 (by norm_num) (by norm_num)),
        apiFetchGo_retry outcomes 3 1 0 3 _ _ _ rfl
          (h 3 (by norm_num) (by norm_num))]
    norm_num [apiFetchGo, backoffDelay]
  rw [key]
  refine ⟨rfl, rfl, ?_, ?_⟩
  · simp [List.chain'_cons]
  · intro d hd
    simp only [List.mem_cons, List.not_mem_nil, or_false] at hd
    rcases hd with h | h <;> omega

/-- Witness for C2: a backend that is down on every attempt. -/
theorem apiFetch_retry_backoff_exhaustion_witness :
    (apiFetch fun _ => .netError "down").attempts = 3 ∧
    (apiFetch fun _ => .netError "down").delays = [1000, 2000] ∧
    List.Chain' (fun a b => a < b) (apiFetch fun _ => .netError "down").delays ∧
    ∀ d ∈ (apiFetch fun _ => .netError "down").delays, d ≤ 5000 :=
  apiFetch_retry_backoff_exhaustion (fun _ => .netError "down")
    (fun _ _ _ => rfl)

/-! ## C3 -/

/-- **C3, counterexample.** A backend that answers 500 with detail `"boom"`
on all three attempts exhausts the retry budget, yet the terminal failure
`apiFetch` raises is the last `APIError` rethrown verbatim: its message is
just `"boom"`, which does not indicate repeated attempts or report the
attempt count. -/
theorem apiFetch_exhaustion_message_counterexample :
    apiFetch (fun _ => .httpResponse 500 ⟨some "boom", none⟩) =
      ⟨.failure "boom" 500, 3, [1000, 2000]⟩ ∧
    mentionsAttempts "boom" = false :=
  ⟨rfl, by decide⟩

/-- **C3, amended.** When `apiFetch` exhausts all three attempts — the
first two failing retryably in any way (network error or status ≥ 500) —
and the *last* failure was network-level (no `APIError` in `lastError`),
the terminal failure wraps the network message as
`"Network error after 3 attempts: …"` — a message that does report the
attempt count — and carries status 0, distinct from any first-attempt
client-error status in 400–499.  (When the last failure was a
server-error `APIError`, that error is rethrown unchanged, as the
counterexample shows.) -/
theorem apiFetch_network_exhaustion_reports_attempts
    (outcomes : Nat → AttemptOutcome) (m3 : String)
    (h1 : isRetryFailure (outcomes 1) = true)
    (h2 : isRetryFailure (outcomes 2) = true)
    (h3 : outcomes 3 = .netError m3) :
    apiFetch outcomes =
      ⟨.failure ("Network error after " ++ toString (3 : Nat) ++ " attempts: " ++ m3)
        0, 3, [1000, 2000]⟩ ∧
    mentionsAttempts
      ("Network error after " ++ toString (3 : Nat) ++ " attempts: " ++ m3) = true := by
  constructor
  · rw [show apiFetch outcomes = apiFetchGo outcomes 3 3 1 .noneYet [] 0 from rfl,
        apiFetchGo_retry outcomes 3 3 2 1 _ _ _ rfl h1,
        apiFetchGo_retry outcomes 3 2 1 2 _ _ _ rfl h2,
        apiFetchGo_retry outcomes 3 1 0 3 _ _ _ rfl (by rw [h3]; rfl)]
    rw [h3]
    norm_num [apiFetchGo, exhaust, nextLast, backoffDelay]
  · unfold mentionsAttempts
    rw [decide_eq_true_eq]
    have hsplit :
        ("Network error after " ++ toString (3 : Nat) ++ " attempts: " ++ m3).toList =
          ("Network error after " ++ toString (3 : Nat) ++ " attempts: ").toList ++
            m3.toList := by
      simp [String.toList]
    rw [hsplit]
    exact (show "attempts".toList <:+:
        ("Network error after " ++ toString (3 : Nat) ++ " attempts: ").toList
      by decide).trans (List.prefix_append _ _).isInfix

/-- Two 500 responses followed by a network failure on the final attempt. -/
def exC3 : Nat → AttemptOutcome := fun j =>
  if j = 3 then .netError "refused" else .httpResponse 500 ⟨some "boom", none⟩

/-- Witness for the amended C3: server errors on the first two attempts
and a network failure on the last still raise the attempt-count message. -/
theorem apiFetch_network_exhaustion_reports_attempts_witness :
    apiFetch exC3 =
      ⟨.failure ("Network error after " ++ toString (3 : Nat) ++ " attempts: " ++ "refused")
        0, 3, [1000, 2000]⟩ ∧
    mentionsAttempts
      ("Network error after " ++ toString (3 : Nat) ++ " attempts: " ++ "refused") = true :=
  apiFetch_network_exhaustion_reports_attempts exC3 "refused"
    (by decide) (by decide) (by decide)

/-! ## C4 -/

/-- **C4, counterexample.** Calling `startAutoRefresh` alone (from a fresh
page with no timer) arms the interval timer but issues no fetch at all:
afterwards nothing is in flight — in particular no fetch for the `status`
resource — so the start operation itself does not trigger an immediate
fetch of every registered resource. -/
theorem startAutoRefresh_issues_no_fetch :
    (run pollInit [Ev.startAuto]).running = true ∧
    (run pollInit [Ev.startAuto]).inFlight = [] ∧
    Resource.status ∉ (run pollInit [Ev.startAuto]).inFlight := by
  decide

/-- **C4, amended.** The immediate initial fetch is performed by the page
initialiser, not by `startAutoRefresh`: the `DOMContentLoaded` handler
fetches every registered resource (status, recommendations, sales) and
then calls `startAutoRefresh`, so all three fetches are in flight before
any interval tick occurs and the timer is armed. -/
theorem pageLoad_immediate_fetch :
    (run pollInit [Ev.pageLoad]).inFlight =
      [Resource.status, Resource.recs, Resource.sales] ∧
    (run pollInit [Ev.pageLoad]).running = true := by
  decide

/-! ## C5 -/

/-- **C5, counterexample.** Issue the page-load fetches, call
`stopAutoRefresh`, and then let the in-flight `status` fetch complete:
before the completion no render has run, yet the late-arriving result is
still delivered and mutates the rendered state (`renders.status` becomes
1) — it is not discarded. -/
theorem stopAutoRefresh_late_result_applied :
    (run pollInit [Ev.pageLoad, Ev.stopAuto]).running = false ∧
    (run pollInit [Ev.pageLoad, Ev.stopAuto]).renders = ⟨0, 0, 0⟩ ∧
    (run pollInit
        [Ev.pageLoad, Ev.stopAuto, Ev.complete Resource.status true]).renders.status
      = 1 := by
  decide

/-- **C5, amended.** `stopAutoRefresh` cancels only the interval timer:
after it, a tick is a no-op (no new fetches are issued), but any fetch
already in flight still delivers its result to its render callback when
it completes — late results are applied, not discarded. -/
theorem stopAutoRefresh_cancels_timer_only (s : PollState) (r : Resource)
    (h : r ∈ (step s Ev.stopAuto).inFlight) :
    (step s Ev.stopAuto).running = false ∧
    step (step s Ev.stopAuto) Ev.tick = step s Ev.stopAuto ∧
    (step (step s Ev.stopAuto) (Ev.complete r true)).renders =
      ((step s Ev.stopAuto).renders).inc r := by
  have hrun : (stopAutoRefresh s).running = false := by
    cases hs : s.running <;> simp [stopAutoRefresh, hs]
  simp only [step] at h
  refine ⟨hrun, ?_, ?_⟩
  · simp [step, hrun]
  · simp [step, h]

/-- Witness for the amended C5: stop right after page load, with the
`status` fetch still in flight. -/
theorem stopAutoRefresh_cancels_timer_only_witness :
    (step (run pollInit [Ev.pageLoad]) Ev.stopAuto).running = false ∧
    step (step (run pollInit [Ev.pageLoad]) Ev.stopAuto) Ev.tick =
      step (run pollInit [Ev.pageLoad]) Ev.stopAuto ∧
    (step (step (run pollInit [Ev.pageLoad]) Ev.stopAuto)
        (Ev.complete Resource.status true)).renders =
      ((step (run pollInit [Ev.pageLoad]) Ev.stopAuto).renders).inc Resource.status :=
  stopAutoRefresh_cancels_timer_only (run pollInit [Ev.pageLoad]) Resource.status
    (by decide)

/-! ## C6 -/

/-- Running an event list decomposes over append. -/
theorem run_append (s : PollState) (a b : List Ev) :
    run s (a ++ b) = run (run s a) b :=
  List.foldl_append step s a b

/-- Effect of one full polling round from a running, idle state, in which
the `status` fetch fails and the `recs` and `sales` fetches succeed: each
result reaches only its own resource's callback. -/
theorem run_tickRound (s : PollState) (hrun : s.running = true)
    (hin : s.inFlight = []) :
    run s tickRound =
      { running := true, inFlight := [],
        renders := ⟨s.renders.status, s.renders.recs + 1, s.renders.sales + 1⟩,
        errors := ⟨s.errors.status + 1, s.errors.recs, s.errors.sales⟩ } := by
  obtain ⟨running, inFlight, ⟨rs, rr, rl⟩, ⟨es, er, el⟩⟩ := s
  simp only at hrun hin
  subst hrun hin
  simp [run, tickRound, step, issueAll, Counts.inc, List.erase]

/-- Effect of `n` such rounds. -/
theorem run_tickRounds (n : Nat) (s : PollState) (hrun : s.running = true)
    (hin : s.inFlight = []) :
    run s (tickRounds n) =
      { running := true, inFlight := [],
        renders := ⟨s.renders.status, s.renders.recs + n, s.renders.sales + n⟩,
        errors := ⟨s.errors.status + n, s.errors.recs, s.errors.sales⟩ } := by
  induction n generalizing s with
  | zero =>
    obtain ⟨running, inFlight, ⟨rs, rr, rl⟩, ⟨es, er, el⟩⟩ := s
    simp only at hrun hin
    subst hrun hin
    simp [tickRounds, run]
  | succ n ih =>
    rw [tickRounds, run_append, run_tickRound s hrun hin, ih _ rfl rfl]
    simp
    omega

/-- **C6.** Per-resource failure isolation: starting from a running
synchronizer with nothing in flight, if on every tick the `status` fetch
fails while the `recs` fetch succeeds, then after `n` ticks the
succeeding resource's render callback has run exactly `n` times and the
failing resource's error handler exactly `n` times — and neither result
ever reached the other resource's callbacks. -/
theorem polling_partial_failure_isolation (n : Nat) :
    (run pollRunningIdle (tickRounds n)).renders.recs = n ∧
    (run pollRunningIdle (tickRounds n)).errors.status = n ∧
    (run pollRunningIdle (tickRounds n)).renders.status = 0 ∧
    (run pollRunningIdle (tickRounds n)).errors.recs = 0 := by
  rw [run_tickRounds n pollRunningIdle rfl rfl]
  simp [pollRunningIdle]

/-! ## C7 -/

/-- **C7.** The health probe reports reachable on a 405 (method not
allowed) response — the server answered, even though it rejected the
probe's verb — and unreachable when the connection attempt fails with no
response. -/
theorem checkAPIHealth_405_and_failure (m : String) (d : RespData) :
    checkAPIHealth (.httpResponse 405 d) = true ∧
    checkAPIHealth (.netError m) = false :=
  ⟨rfl, rfl⟩

/-! ## C8 -/

/-- **C8.** The persisted transcript never exceeds the 50-entry cap: what
`saveChatHistory` persists is exactly the length-`min(len, 50)` suffix of
the in-memory transcript — the most recent entries in their original
relative order, with the oldest evicted from the front. -/
theorem saveChatHistory_cap (chatHistory : List Entry) :
    (saveChatHistory chatHistory).length ≤ 50 ∧
    (saveChatHistory chatHistory).length = min chatHistory.length 50 ∧
    saveChatHistory chatHistory <:+ chatHistory := by
  refine ⟨?_, ?_, List.drop_suffix _ _⟩ <;>
    simp [saveChatHistory, List.length_drop] <;> omega

/-! ## C9 -/

/-- **C9.** Restoring the transcript yields the persisted list when the
slot holds a value that parses to a list, and the empty list — not an
error — when the slot is absent or holds a corrupt (unparseable) value. -/
theorem loadChatHistory_total (parse : String → Option (List Entry))
    (s t : String) (l : List Entry) (hs : s ≠ "")
    (hvalid : parse s = some l) (hcorrupt : parse t = none) :
    loadChatHistory parse (some s) = l ∧
    loadChatHistory parse none = [] ∧
    loadChatHistory parse (some t) = [] := by
  refine ⟨?_, rfl, ?_⟩
  · simp [loadChatHistory, hs, hvalid]
  · by_cases ht : t = "" <;> simp [loadChatHistory, ht, hcorrupt]

/-- A concrete stand-in for `JSON.parse` restricted to entry lists. -/
def parseEx : String → Option (List Entry) := fun s =>
  if s = "[]" then some [] else none

/-- Witness for C9: a valid empty-list serialisation, an absent slot, and
a corrupt slot. -/
theorem loadChatHistory_total_witness :
    loadChatHistory parseEx (some "[]") = [] ∧
    loadChatHistory parseEx none = [] ∧
    loadChatHistory parseEx (some "oops-corrupt") = [] :=
  loadChatHistory_total parseEx "[]" "oops-corrupt" [] (by decide) (by decide)
    (by decide)

/-! ## C10 -/

/-- **C10, counterexample.** An OK-status (200) response whose body fails
to parse as JSON: `response.json()` throws, the `catch` block returns the
offline-style object, and `error` is `true` even though an HTTP response
with an OK status was received — so "`error` is false exactly when an
OK-status response was received" fails. -/
theorem sendDirectChatRequest_ok_parse_failure :
    (sendDirectChatRequest true
        (.httpResponse 200 "OK" (.error "Unexpected end of JSON input"))).error
      = true ∧
    (200 ≤ 200 ∧ 200 < 300) ∧
    sendDirectChatRequest true
        (.httpResponse 200 "OK" (.error "Unexpected end of JSON input")) =
      chatCatchResult "Unexpected end of JSON input" := by
  refine ⟨rfl, by norm_num, rfl⟩

/-- **C10, amended.** `sendDirectChatRequest` never throws and always
returns an object with a string `response`, a `source` and a boolean
`error` (it is a total function into `ChatResult`); `error` is `false`
exactly when the backend was flagged available and an OK-status HTTP
response was received *whose body parsed as JSON*. -/
theorem sendDirectChatRequest_error_iff (backendAvailable : Bool)
    (o : ChatFetchOutcome) :
    (sendDirectChatRequest backendAvailable o).error =
      !(backendAvailable && isOkParsed o) := by
  cases backendAvailable with
  | false => rfl
  | true =>
    cases o with
    | thrown m => rfl
    | httpResponse status st body =>
      by_cases hok : 200 ≤ status ∧ status < 300
      · cases body with
        | ok b => simp [sendDirectChatRequest, isOkParsed, hok, hok.1, hok.2]
        | error m => simp [sendDirectChatRequest, isOkParsed, hok, chatCatchResult]
      · have h1 : ¬(200 ≤ status) ∨ ¬(status < 300) := by tauto
        cases body with
        | ok b =>
          rcases h1 with h | h <;>
            simp [sendDirectChatRequest, isOkParsed, hok, h]
        | error m =>
          simp [sendDirectChatRequest, isOkParsed, hok, chatCatchResult]

end CricketAuction
